import Mathlib

/-!
Shallow embedding of the dohdns DNS-over-HTTPS library.

The embedding models the request translator (the GET and POST validators
and the method dispatcher) and the resolver proxy (construction and the
query pipeline).  Byte sequences are lists of naturals below 256; the
HTTP response writer is explicit state; the DNS codec, the exchange
transport and the resolver-configuration reader are abstract parameters,
mirroring their role as external collaborators of the source.
-/

namespace Dohdns

/-- Byte sequences are modelled as lists of naturals below 256. -/
abbrev Bytes := List Nat

/-- Media type constant `mime` from the source. -/
def mime : String := "application/dns-udpwireformat"

/-- ASCII bytes of a string (all strings the handlers write are ASCII,
so codepoints coincide with UTF-8 bytes). -/
def strBytes (s : String) : Bytes := s.data.map Char.toNat

/-- Go `http.Header.Set`: replace any existing entries for the key. -/
def headerSet (h : List (String × String)) (k v : String) : List (String × String) :=
  h.filter (fun p => p.1 != k) ++ [(k, v)]

/-- Go `http.Header.Get`: first value for the key, `""` when absent. -/
def headerGet (h : List (String × String)) (k : String) : String :=
  match h.find? (fun p => p.1 == k) with
  | some p => p.2
  | none => ""

/-- Go `url.Values` lookup: the values listed for a key, in order.  The
key is present in the Go map exactly when this list is nonempty. -/
def queryValues (q : List (String × String)) (k : String) : List String :=
  (q.filter (fun p => p.1 == k)).map (fun p => p.2)

/-- State of an `http.ResponseWriter` (a fresh recorder carries status 200,
no headers, an empty body, and has not committed its header section yet). -/
structure ResponseWriter where
  headers : List (String × String)
  status : Nat
  wroteHeader : Bool
  body : Bytes
deriving DecidableEq

/-- Fresh response writer, as handed to the handler for each request. -/
def ResponseWriter.init : ResponseWriter := ⟨[], 200, false, []⟩

def ResponseWriter.setHeader (w : ResponseWriter) (k v : String) : ResponseWriter :=
  { w with headers := headerSet w.headers k v }

/-- Go `WriteHeader`: only the first call takes effect. -/
def ResponseWriter.writeHeader (w : ResponseWriter) (code : Nat) : ResponseWriter :=
  if w.wroteHeader then w else { w with status := code, wroteHeader := true }

/-- Go `Write`: implies `WriteHeader 200` when no header was written yet,
then appends the bytes to the body. -/
def ResponseWriter.write (w : ResponseWriter) (data : Bytes) : ResponseWriter :=
  let w1 := w.writeHeader 200
  { w1 with body := w1.body ++ data }

/-- Go `http.StatusText` restricted to the codes this program can emit
(unknown codes give `""`, as in the Go standard library). -/
def statusText (code : Nat) : String :=
  if code = 200 then "OK"
  else if code = 400 then "Bad Request"
  else if code = 405 then "Method Not Allowed"
  else if code = 413 then "Request Entity Too Large"
  else if code = 415 then "Unsupported Media Type"
  else if code = 422 then "Unprocessable Entity"
  else if code = 500 then "Internal Server Error"
  else ""

/-- Go `http.Error`: overwrites Content-Type with text/plain, sets the
nosniff header, writes the status code, then the message plus a newline. -/
def httpError (w : ResponseWriter) (msg : String) (code : Nat) : ResponseWriter :=
  let w1 := w.setHeader "Content-Type" "text/plain; charset=utf-8"
  let w2 := w1.setHeader "X-Content-Type-Options" "nosniff"
  let w3 := w2.writeHeader code
  w3.write (strBytes (msg ++ "\n"))

/-! ### Unpadded base64url (Go base64.RawURLEncoding)

The URL-safe alphabet of RFC 4648.  Decoding rejects characters outside
the alphabet and a leftover group of one character; as in the Go
decoder outside strict mode, nonzero trailing bits in a final partial
group are ignored.  (The Go decoder additionally skips CR and LF inside
the input and reports the byte offset of an invalid character; both are
abstracted away here, since no handler behaviour depends on them.) -/

def b64Alphabet : List Char :=
  ['A', 'B', 'C', 'D', 'E', 'F', 'G', 'H', 'I', 'J', 'K', 'L', 'M',
   'N', 'O', 'P', 'Q', 'R', 'S', 'T', 'U', 'V', 'W', 'X', 'Y', 'Z',
   'a', 'b', 'c', 'd', 'e', 'f', 'g', 'h', 'i', 'j', 'k', 'l', 'm',
   'n', 'o', 'p', 'q', 'r', 's', 't', 'u', 'v', 'w', 'x', 'y', 'z',
   '0', '1', '2', '3', '4', '5', '6', '7', '8', '9', '-', '_']

/-- Character for a 6-bit value. -/
def b64CharOf (i : Nat) : Char := b64Alphabet.getD i 'A'

/-- Inverse decode map of the alphabet (`none` for characters outside it). -/
def b64Index (c : Char) : Option Nat := b64Alphabet.findIdx? (fun x => x == c)

/-- Encode bytes in groups of three into groups of four characters; a
final group of two bytes gives three characters, one byte gives two. -/
def b64EncodeChunks : Bytes → List Char
  | [] => []
  | [b1] => [b64CharOf (b1 / 4), b64CharOf (b1 % 4 * 16)]
  | [b1, b2] =>
    [b64CharOf (b1 / 4), b64CharOf (b1 % 4 * 16 + b2 / 16), b64CharOf (b2 % 16 * 4)]
  | b1 :: b2 :: b3 :: rest =>
    b64CharOf (b1 / 4) :: b64CharOf (b1 % 4 * 16 + b2 / 16) ::
    b64CharOf (b2 % 16 * 4 + b3 / 64) :: b64CharOf (b3 % 64) :: b64EncodeChunks rest

/-- Decode characters in groups of four into groups of three bytes; a
final group of three characters gives two bytes, two characters give one
byte, and a leftover single character is corrupt input. -/
def b64DecodeChunks : List Char → Except String Bytes
  | [] => .ok []
  | [_] => .error "illegal base64 data"
  | [c1, c2] =>
    match b64Index c1, b64Index c2 with
    | some i1, some i2 => .ok [i1 * 4 + i2 / 16]
    | _, _ => .error "illegal base64 data"
  | [c1, c2, c3] =>
    match b64Index c1, b64Index c2, b64Index c3 with
    | some i1, some i2, some i3 =>
      .ok [i1 * 4 + i2 / 16, i2 % 16 * 16 + i3 / 4]
    | _, _, _ => .error "illegal base64 data"
  | c1 :: c2 :: c3 :: c4 :: rest =>
    match b64Index c1, b64Index c2, b64Index c3, b64Index c4 with
    | some i1, some i2, some i3, some i4 =>
      match b64DecodeChunks rest with
      | .ok bs => .ok ([i1 * 4 + i2 / 16, i2 % 16 * 16 + i3 / 4, i3 % 4 * 64 + i4] ++ bs)
      | .error e => .error e
    | _, _, _, _ => .error "illegal base64 data"

/-- Go `base64.RawURLEncoding.EncodeToString`. -/
def base64RawURLEncode (data : Bytes) : String := String.mk (b64EncodeChunks data)

/-- Go `base64.RawURLEncoding.DecodeString`. -/
def base64RawURLDecode (s : String) : Except String Bytes := b64DecodeChunks s.data

/-! ### Request model and the Database capability -/

/-- Request body as the handler sees it: either readable bytes or a
reader whose first read fails with the given error message. -/
inductive Body where
  | bytes (data : Bytes)
  | readError (msg : String)
deriving DecidableEq

/-- The parts of an `http.Request` the handlers consult. -/
structure HttpRequest where
  method : String
  query : List (String × String)
  headers : List (String × String)
  body : Body
deriving DecidableEq

/-- Go `ioutil.ReadAll` over `http.MaxBytesReader(w, body, limit)`: an
underlying read failure propagates; a body longer than the limit yields
the distinguished too-large error; otherwise all bytes are returned. -/
def readAllMax (b : Body) (limit : Nat) : Except String Bytes :=
  match b with
  | .readError msg => .error msg
  | .bytes data => if limit < data.length then .error "http: request body too large" else .ok data

/-- The `Database` interface: `Query(data) -> (rdata, httpStatus, err)`,
with the error modelled as an optional message. -/
structure Database where
  Query : Bytes → Bytes × Nat × Option String

/-! ### The GET and POST validators and the dispatcher

Each `Handle` consumes a response writer and returns the final writer
state together with the error the Go method returns to the dispatcher
(`none` on success).  Logging in `HandleRequest` is a side effect that
never touches the response and is not modelled. -/

/-- GET validator (`GetRequest.Handle` in the source).  The source tests
presence of the `dns` key first via the comma-ok idiom, then the count,
then emptiness of the single value, then decodes. -/
def GetRequest.Handle (db : Database) (r : HttpRequest) (w0 : ResponseWriter) :
    ResponseWriter × Option String :=
  let w := w0.setHeader "Content-Type" mime
  let dns := queryValues r.query "dns"
  if dns.isEmpty then
    (httpError w (statusText 400) 400, some "GET: no 'dns' parameter in request")
  else if dns.length ≠ 1 then
    (httpError w (statusText 422) 422, some "GET: only 1 'dns' parameter is allowed")
  else if (dns.headD "").length = 0 then
    (httpError w (statusText 400) 400, some "GET: 'dns' parameter is empty")
  else
    match base64RawURLDecode (dns.headD "") with
    | .error e => (httpError w (statusText 400) 400, some e)
    | .ok qdata =>
      match db.Query qdata with
      | (_, httpStatus, some e) => (httpError w (statusText httpStatus) httpStatus, some e)
      | (rdata, _, none) => (w.write rdata, none)

/-- Shared tail of the POST validator after a successful body read:
the empty-body check and the backend call (source lines after ReadAll). -/
def postBodyStep (db : Database) (body : Bytes) (w : ResponseWriter) :
    ResponseWriter × Option String :=
  if body.length = 0 then
    (httpError w (statusText 400) 400, some "POST: empty body in request")
  else
    match db.Query body with
    | (_, httpStatus, some e) => (httpError w (statusText httpStatus) httpStatus, some e)
    | (rdata, _, none) => (w.write rdata, none)

/-- POST validator (`PostRequest.Handle` in the source). -/
def PostRequest.Handle (db : Database) (r : HttpRequest) (w0 : ResponseWriter) :
    ResponseWriter × Option String :=
  let w := w0.setHeader "Content-Type" mime
  if !(queryValues r.query "dns").isEmpty then
    (httpError w (statusText 400) 400, some "POST: 'dns' parameter not allowed")
  else if headerGet r.headers "Content-Type" ≠ mime then
    (httpError w (statusText 415) 415, some ("POST: Content-Type must be " ++ mime))
  else
    match readAllMax r.body 8192 with
    | .error e =>
      if e = "http: request body too large" then
        (httpError w (statusText 413) 413, some e)
      else
        (httpError w (statusText 500) 500, some e)
    | .ok body => postBodyStep db body w

/-- Method dispatcher (`HandleRequest` in the source). -/
def HandleRequest (db : Database) (r : HttpRequest) (w : ResponseWriter) :
    ResponseWriter × Option String :=
  if r.method = "GET" then GetRequest.Handle db r w
  else if r.method = "POST" then PostRequest.Handle db r w
  else
    (httpError w (statusText 405) 405,
     some "HandleRequest: only GET and POST methods are supported")

/-! ### The resolver proxy

The DNS codec (miekg/dns Unpack and Pack), the exchange transport and
the resolver-configuration reader are external collaborators, taken as
abstract parameters over an abstract message type `Msg`.  An exchanger
maps a message and a host:port address to either an error or a reply
message with its round-trip duration. -/

/-- Abstract DNS wire-format codec. -/
structure DnsCodec (Msg : Type) where
  unpack : Bytes → Except String Msg
  pack : Msg → Except String Bytes

/-- Go `net.JoinHostPort`. -/
def joinHostPort (host port : String) : String :=
  if host.data.contains ':' then "[" ++ host ++ "]:" ++ port
  else host ++ ":" ++ port

/-- The `ProxyBackend` record.  The constructor in the source leaves
`ResolvConf` at its zero value.  `Exchanger` is the exchange capability
as a function. -/
structure ProxyBackend (Msg : Type) where
  Servers : List String
  Port : String
  ResolvConf : String
  Exchanger : Msg → String → Except String (Msg × Nat)

/-- Traced query pipeline (`ProxyBackend.Query` in the source): unpack,
exchange against the first configured server, pack.  The second
component instruments the run with the list of exchange invocations
(message and address), which the source performs implicitly; the
observable triple is the first component.  Go indexing `Servers[0]`
panics on an empty list, which is outside this model (`headD ""`). -/
def ProxyBackend.QueryT {Msg : Type} (pb : ProxyBackend Msg) (codec : DnsCodec Msg)
    (qdata : Bytes) : (Option Bytes × Nat × Option String) × List (Msg × String) :=
  match codec.unpack qdata with
  | .error e => ((none, 400, some e), [])
  | .ok m =>
    let addr := joinHostPort (pb.Servers.headD "") pb.Port
    match pb.Exchanger m addr with
    | .error e => ((none, 500, some e), [(m, addr)])
    | .ok (r, _) =>
      match codec.pack r with
      | .error e => ((none, 500, some e), [(m, addr)])
      | .ok rdata => ((some rdata, 200, none), [(m, addr)])

/-- Observable result of `ProxyBackend.Query`. -/
def ProxyBackend.Query {Msg : Type} (pb : ProxyBackend Msg) (codec : DnsCodec Msg)
    (qdata : Bytes) : Option Bytes × Nat × Option String :=
  (pb.QueryT codec qdata).1

/-- Constructor `NewProxy`.  `servers` is an optional list: `none` models
a nil Go slice (the only case the source treats as unspecified), while
`some []` models an empty non-nil slice.  `readConf` abstracts
`dns.ClientConfigFromFile` reduced to its server list; `defaultClient`
abstracts the default `dns.Client` exchange. -/
def NewProxy {Msg : Type} (readConf : String → Except String (List String))
    (defaultClient : Msg → String → Except String (Msg × Nat))
    (servers : Option (List String)) (port : String) (resolvconf : String)
    (exchanger : Option (Msg → String → Except String (Msg × Nat))) :
    Except String (ProxyBackend Msg) :=
  let rc := if resolvconf = "" then "/etc/resolv.conf" else resolvconf
  let serversE : Except String (List String) :=
    match servers with
    | none => readConf rc
    | some s => .ok s
  match serversE with
  | .error e => .error e
  | .ok ss =>
    let p := if port = "" then "53" else port
    let ex := match exchanger with
      | none => defaultClient
      | some e => e
    .ok { Servers := ss, Port := p, ResolvConf := "", Exchanger := ex }

/-! ### Concrete fixtures used to instantiate claims -/

/-- Echo backend used to instantiate the claims at concrete inputs. -/
def dbEcho : Database := ⟨fun b => (b, 200, none)⟩

/-- Echo backend written differently from dbEcho but pointwise equal to
it, used to instantiate the determinism claim. -/
def dbEchoApp : Database := ⟨fun b => (b ++ [], 200, none)⟩

/-- Identity codec over raw bytes, used for concrete instantiation. -/
def codecId : DnsCodec Bytes := ⟨fun b => .ok b, fun m => .ok m⟩

/-- Concrete two-server backend whose exchange always answers. -/
def pbOk : ProxyBackend Bytes :=
  ⟨["192.0.2.53", "192.0.2.54"], "53", "", fun m _ => .ok (m ++ [1], 5)⟩

/-- DNS codec whose unpack always fails, as for garbage wire bytes. -/
def codecFail : DnsCodec Bytes := ⟨fun _ => .error "unpack failed", fun m => .ok m⟩

/-- Resolver-configuration reader whose file parse always succeeds with
one nameserver entry. -/
def readConfEx : String → Except String (List String) :=
  fun _ => .ok ["192.0.2.53"]

/-- Stand-in for the default DNS client exchange. -/
def dfltEx : Bytes → String → Except String (Bytes × Nat) :=
  fun m _ => .ok (m, 0)

/-! ### Properties of the base64url codec -/

theorem b64Index_b64CharOf : ∀ i < 64, b64Index (b64CharOf i) = some i := by decide

theorem b64EncodeChunks_ne_nil : ∀ l : Bytes, l ≠ [] → b64EncodeChunks l ≠ []
  | [], h => absurd rfl h
  | [_], _ => by simp [b64EncodeChunks]
  | [_, _], _ => by simp [b64EncodeChunks]
  | _ :: _ :: _ :: _, _ => by simp [b64EncodeChunks]

/-- Decoding is a left inverse of encoding on genuine byte sequences. -/
theorem b64_decode_encode :
    ∀ l : Bytes, (∀ b ∈ l, b < 256) → b64DecodeChunks (b64EncodeChunks l) = .ok l
  | [], _ => rfl
  | [b1], h => by
    have hb1 : b1 < 256 := h b1 (by simp)
    have h1 := b64Index_b64CharOf (b1 / 4) (by omega)
    have h2 := b64Index_b64CharOf (b1 % 4 * 16) (by omega)
    simp [b64EncodeChunks, b64DecodeChunks, h1, h2]
    omega
  | [b1, b2], h => by
    have hb1 : b1 < 256 := h b1 (by simp)
    have hb2 : b2 < 256 := h b2 (by simp)
    have h1 := b64Index_b64CharOf (b1 / 4) (by omega)
    have h2 := b64Index_b64CharOf (b1 % 4 * 16 + b2 / 16) (by omega)
    have h3 := b64Index_b64CharOf (b2 % 16 * 4) (by omega)
    simp [b64EncodeChunks, b64DecodeChunks, h1, h2, h3]
    constructor
    · omega
    · omega
  | b1 :: b2 :: b3 :: rest, h => by
    have hb1 : b1 < 256 := h b1 (by simp)
    have hb2 : b2 < 256 := h b2 (by simp)
    have hb3 : b3 < 256 := h b3 (by simp)
    have ih := b64_decode_encode rest (fun b hb => h b (by simp [hb]))
    have h1 := b64Index_b64CharOf (b1 / 4) (by omega)
    have h2 := b64Index_b64CharOf (b1 % 4 * 16 + b2 / 16) (by omega)
    have h3 := b64Index_b64CharOf (b2 % 16 * 4 + b3 / 64) (by omega)
    have h4 := b64Index_b64CharOf (b3 % 64) (by omega)
    simp [b64EncodeChunks, b64DecodeChunks, h1, h2, h3, h4, ih]
    refine ⟨by omega, by omega, by omega⟩

/-! ### Helper lemmas about writer state -/

theorem find?_filter_ne (h : List (String × String)) (k : String) :
    (h.filter (fun p => p.1 != k)).find? (fun p => p.1 == k) = none := by
  rw [List.find?_eq_none]
  intro x hx
  have hm := (List.mem_filter.mp hx).2
  simpa using hm

theorem headerGet_headerSet_same (h : List (String × String)) (k v : String) :
    headerGet (headerSet h k v) k = v := by
  unfold headerGet headerSet
  rw [List.find?_append, find?_filter_ne]
  simp [List.find?]

theorem find?_filter_other (h : List (String × String)) (k k1 : String)
    (hk : k1 ≠ k) :
    (h.filter (fun p => p.1 != k1)).find? (fun p => p.1 == k)
      = h.find? (fun p => p.1 == k) := by
  induction h with
  | nil => rfl
  | cons p t ih =>
    by_cases hp1 : p.1 = k1
    · simp [List.filter_cons, hp1, List.find?_cons, hk, ih]
    · by_cases hpk : p.1 = k
      · have hk2 : k ≠ k1 := Ne.symm hk
        simp [List.filter_cons, hp1, List.find?_cons, hpk, hk2]
      · simp [List.filter_cons, hp1, List.find?_cons, hpk, ih]

theorem headerGet_headerSet_ne (h : List (String × String)) (k k1 v : String)
    (hk : k1 ≠ k) : headerGet (headerSet h k1 v) k = headerGet h k := by
  unfold headerGet headerSet
  rw [List.find?_append, find?_filter_other h k k1 hk]
  cases hf : h.find? (fun p => p.1 == k) with
  | some p => simp
  | none =>
    have hb : (k1 == k) = false := by simp [hk]
    simp [List.find?, hb]

theorem httpError_status (w : ResponseWriter) (msg : String) (code : Nat)
    (hw : w.wroteHeader = false) : (httpError w msg code).status = code := by
  simp [httpError, ResponseWriter.write, ResponseWriter.writeHeader,
        ResponseWriter.setHeader, hw]

theorem httpError_contentType (w : ResponseWriter) (msg : String) (code : Nat) :
    headerGet (httpError w msg code).headers "Content-Type"
      = "text/plain; charset=utf-8" := by
  have hne : ("X-Content-Type-Options" : String) ≠ "Content-Type" := by decide
  simp only [httpError, ResponseWriter.write, ResponseWriter.writeHeader,
             ResponseWriter.setHeader]
  by_cases hw : w.wroteHeader <;>
    simp [hw, headerGet_headerSet_ne _ _ _ _ hne, headerGet_headerSet_same]

theorem httpError_err_body (w : ResponseWriter) (msg : String) (code : Nat) :
    (httpError w msg code).body = w.body ++ strBytes (msg ++ "\n") := by
  simp [httpError, ResponseWriter.write, ResponseWriter.writeHeader,
        ResponseWriter.setHeader]
  by_cases hw : w.wroteHeader <;> simp [hw]

theorem write_headers (w : ResponseWriter) (d : Bytes) :
    (w.write d).headers = w.headers := by
  unfold ResponseWriter.write ResponseWriter.writeHeader
  by_cases hw : w.wroteHeader <;> simp [hw]

theorem write_status_fresh (w : ResponseWriter) (d : Bytes)
    (hw : w.wroteHeader = false) : (w.write d).status = 200 := by
  unfold ResponseWriter.write ResponseWriter.writeHeader
  simp [hw]

theorem write_body (w : ResponseWriter) (d : Bytes) :
    (w.write d).body = w.body ++ d := by
  unfold ResponseWriter.write ResponseWriter.writeHeader
  by_cases hw : w.wroteHeader <;> simp [hw]

theorem initSet_wroteHeader :
    (ResponseWriter.init.setHeader "Content-Type" mime).wroteHeader = false := rfl

theorem initSet_body :
    (ResponseWriter.init.setHeader "Content-Type" mime).body = [] := rfl

theorem length_ne_zero_of_ne_empty (v : String) (h : v ≠ "") : v.length ≠ 0 := by
  cases v with
  | mk data =>
    cases data with
    | nil => exact absurd rfl h
    | cons c t => simp

/-! ### Claims about the request translator -/

/-- Claim C1: for every GET request handled by GetRequest.Handle, a
missing dns query parameter gives status 400; a dns parameter present
more than once gives 422, a check that precedes the empty-value check
(so two empty dns parameters yield 422, not 400); a single empty value
gives 400; and a single nonempty value that fails to decode as unpadded
base64url gives 400 with the decode error returned to the dispatcher. -/
theorem claim_C1 (db : Database) (r : HttpRequest) :
    (queryValues r.query "dns" = [] →
      (GetRequest.Handle db r ResponseWriter.init).1.status = 400) ∧
    (2 ≤ (queryValues r.query "dns").length →
      (GetRequest.Handle db r ResponseWriter.init).1.status = 422) ∧
    (queryValues r.query "dns" = [""] →
      (GetRequest.Handle db r ResponseWriter.init).1.status = 400) ∧
    (∀ v e, queryValues r.query "dns" = [v] → v ≠ "" →
      base64RawURLDecode v = .error e →
      (GetRequest.Handle db r ResponseWriter.init).1.status = 400 ∧
      (GetRequest.Handle db r ResponseWriter.init).2 = some e) := by
  refine ⟨?_, ?_, ?_, ?_⟩
  · intro hq
    simp only [GetRequest.Handle, hq, List.isEmpty_nil, if_true]
    exact httpError_status _ _ _ rfl
  · intro h2
    have h0 : (queryValues r.query "dns").isEmpty = false := by
      rw [List.isEmpty_eq_false]
      intro hq
      rw [hq] at h2
      simp at h2
    have h1 : (queryValues r.query "dns").length ≠ 1 := by omega
    simp only [GetRequest.Handle, h0, Bool.false_eq_true, if_false, ne_eq, h1,
               not_false_eq_true, if_true]
    exact httpError_status _ _ _ rfl
  · intro hq
    simp only [GetRequest.Handle, hq]
    exact httpError_status _ _ _ rfl
  · intro v e hq hv hdec
    have hlen : ¬(v.length = 0) := length_ne_zero_of_ne_empty v hv
    simp only [GetRequest.Handle, hq, List.isEmpty_cons, Bool.false_eq_true, if_false,
               List.length_singleton, ne_eq, not_true_eq_false, not_false_eq_true,
               List.headD_cons, hlen, if_false, hdec]
    exact ⟨httpError_status _ _ _ rfl, trivial⟩

theorem claim_C1_witness :
    (GetRequest.Handle dbEcho ⟨"GET", [], [], .bytes []⟩
        ResponseWriter.init).1.status = 400 ∧
    (GetRequest.Handle dbEcho ⟨"GET", [("dns", ""), ("dns", "")], [], .bytes []⟩
        ResponseWriter.init).1.status = 422 ∧
    (GetRequest.Handle dbEcho ⟨"GET", [("dns", "")], [], .bytes []⟩
        ResponseWriter.init).1.status = 400 ∧
    ((GetRequest.Handle dbEcho ⟨"GET", [("dns", "!")], [], .bytes []⟩
        ResponseWriter.init).1.status = 400 ∧
     (GetRequest.Handle dbEcho ⟨"GET", [("dns", "!")], [], .bytes []⟩
        ResponseWriter.init).2 = some "illegal base64 data") :=
  ⟨(claim_C1 dbEcho _).1 rfl,
   (claim_C1 dbEcho _).2.1 (by decide),
   (claim_C1 dbEcho _).2.2.1 rfl,
   (claim_C1 dbEcho _).2.2.2 "!" "illegal base64 data" rfl (by decide) rfl⟩

theorem getHandle_cases (db : Database) (r : HttpRequest) (w0 : ResponseWriter) :
    (∃ msg code e, GetRequest.Handle db r w0
        = (httpError (w0.setHeader "Content-Type" mime) msg code, some e)) ∨
    (∃ rdata, GetRequest.Handle db r w0
        = ((w0.setHeader "Content-Type" mime).write rdata, none)) := by
  simp only [GetRequest.Handle]
  split
  · exact Or.inl ⟨_, _, _, rfl⟩
  · split
    · exact Or.inl ⟨_, _, _, rfl⟩
    · split
      · exact Or.inl ⟨_, _, _, rfl⟩
      · split
        · exact Or.inl ⟨_, _, _, rfl⟩
        · split
          · exact Or.inl ⟨_, _, _, rfl⟩
          · exact Or.inr ⟨_, rfl⟩

theorem postHandle_cases (db : Database) (r : HttpRequest) (w0 : ResponseWriter) :
    (∃ msg code e, PostRequest.Handle db r w0
        = (httpError (w0.setHeader "Content-Type" mime) msg code, some e)) ∨
    (∃ rdata, PostRequest.Handle db r w0
        = ((w0.setHeader "Content-Type" mime).write rdata, none)) := by
  simp only [PostRequest.Handle, postBodyStep]
  split
  · exact Or.inl ⟨_, _, _, rfl⟩
  · split
    · exact Or.inl ⟨_, _, _, rfl⟩
    · split
      · split
        · exact Or.inl ⟨_, _, _, rfl⟩
        · exact Or.inl ⟨_, _, _, rfl⟩
      · split
        · exact Or.inl ⟨_, _, _, rfl⟩
        · split
          · exact Or.inl ⟨_, _, _, rfl⟩
          · exact Or.inr ⟨_, rfl⟩

/-- Claim C2 counterexample: a GET request with no dns parameter is a
failure response (status 400), and its final Content-Type header is the
text/plain value written by the Go http.Error helper, not the DNS
wire-format media type the claim asserts for every failure response. -/
theorem claim_C2_cex :
    (GetRequest.Handle dbEcho ⟨"GET", [], [], .bytes []⟩
        ResponseWriter.init).1.status = 400 ∧
    headerGet (GetRequest.Handle dbEcho ⟨"GET", [], [], .bytes []⟩
        ResponseWriter.init).1.headers "Content-Type"
      = "text/plain; charset=utf-8" ∧
    headerGet (GetRequest.Handle dbEcho ⟨"GET", [], [], .bytes []⟩
        ResponseWriter.init).1.headers "Content-Type" ≠ mime := by
  refine ⟨by decide, by decide, by decide⟩

/-- Claim C2 (amended): both validators set the Content-Type header to
application/dns-udpwireformat unconditionally before any further
processing, and every success response still carries it; on every
failure response the Go http.Error helper subsequently overwrites it
with text/plain; charset=utf-8. -/
theorem claim_C2 (db : Database) (r : HttpRequest) :
    (((GetRequest.Handle db r ResponseWriter.init).2 = none →
        headerGet (GetRequest.Handle db r ResponseWriter.init).1.headers
          "Content-Type" = mime) ∧
     ((GetRequest.Handle db r ResponseWriter.init).2 ≠ none →
        headerGet (GetRequest.Handle db r ResponseWriter.init).1.headers
          "Content-Type" = "text/plain; charset=utf-8")) ∧
    (((PostRequest.Handle db r ResponseWriter.init).2 = none →
        headerGet (PostRequest.Handle db r ResponseWriter.init).1.headers
          "Content-Type" = mime) ∧
     ((PostRequest.Handle db r ResponseWriter.init).2 ≠ none →
        headerGet (PostRequest.Handle db r ResponseWriter.init).1.headers
          "Content-Type" = "text/plain; charset=utf-8")) := by
  refine ⟨⟨?_, ?_⟩, ?_, ?_⟩
  · intro hn
    rcases getHandle_cases db r ResponseWriter.init with ⟨m, c, e, hEq⟩ | ⟨rd, hEq⟩
    · rw [hEq] at hn
      simp at hn
    · rw [hEq]
      simp only [write_headers, ResponseWriter.setHeader]
      exact headerGet_headerSet_same _ _ _
  · intro hn
    rcases getHandle_cases db r ResponseWriter.init with ⟨m, c, e, hEq⟩ | ⟨rd, hEq⟩
    · rw [hEq]
      exact httpError_contentType _ _ _
    · rw [hEq] at hn
      simp at hn
  · intro hn
    rcases postHandle_cases db r ResponseWriter.init with ⟨m, c, e, hEq⟩ | ⟨rd, hEq⟩
    · rw [hEq] at hn
      simp at hn
    · rw [hEq]
      simp only [write_headers, ResponseWriter.setHeader]
      exact headerGet_headerSet_same _ _ _
  · intro hn
    rcases postHandle_cases db r ResponseWriter.init with ⟨m, c, e, hEq⟩ | ⟨rd, hEq⟩
    · rw [hEq]
      exact httpError_contentType _ _ _
    · rw [hEq] at hn
      simp at hn

theorem claim_C2_witness :
    headerGet (GetRequest.Handle dbEcho ⟨"GET", [("dns", "AAAA")], [], .bytes []⟩
        ResponseWriter.init).1.headers "Content-Type" = mime ∧
    headerGet (PostRequest.Handle dbEcho
        ⟨"POST", [], [("Content-Type", mime)], .bytes [1, 2]⟩
        ResponseWriter.init).1.headers "Content-Type" = mime ∧
    headerGet (PostRequest.Handle dbEcho
        ⟨"POST", [], [("Content-Type", "text/plain")], .bytes [1, 2]⟩
        ResponseWriter.init).1.headers "Content-Type"
      = "text/plain; charset=utf-8" :=
  ⟨(claim_C2 dbEcho _).1.1 (by decide),
   (claim_C2 dbEcho _).2.1 (by decide),
   (claim_C2 dbEcho _).2.2 (by decide)⟩

/-- Claim C3: for every POST request, a dns query parameter present at
all (whatever its value) gives status 400, and this check precedes the
Content-Type check; with no dns parameter, a Content-Type header not
exactly equal to the DNS media type string gives status 415. -/
theorem claim_C3 (db : Database) (r : HttpRequest) :
    (queryValues r.query "dns" ≠ [] →
      (PostRequest.Handle db r ResponseWriter.init).1.status = 400) ∧
    (queryValues r.query "dns" = [] →
      headerGet r.headers "Content-Type" ≠ mime →
      (PostRequest.Handle db r ResponseWriter.init).1.status = 415) := by
  constructor
  · intro hq
    have h0 : (queryValues r.query "dns").isEmpty = false :=
      List.isEmpty_eq_false.mpr hq
    simp only [PostRequest.Handle, h0, Bool.not_false, if_true]
    exact httpError_status _ _ _ rfl
  · intro hq hct
    simp only [PostRequest.Handle, hq, List.isEmpty_nil, Bool.not_true,
               Bool.false_eq_true, if_false, ne_eq, hct, not_false_eq_true, if_true]
    exact httpError_status _ _ _ rfl

theorem claim_C3_witness :
    (PostRequest.Handle dbEcho
        ⟨"POST", [("dns", "AAAA")], [("Content-Type", "text/plain")], .bytes [1]⟩
        ResponseWriter.init).1.status = 400 ∧
    (PostRequest.Handle dbEcho
        ⟨"POST", [], [("Content-Type", "text/plain")], .bytes [1]⟩
        ResponseWriter.init).1.status = 415 :=
  ⟨(claim_C3 dbEcho _).1 (by decide),
   (claim_C3 dbEcho _).2 rfl (by decide)⟩

/-- Claim C4: for every POST request that passes the parameter and
Content-Type checks, a body of exactly 8192 bytes passes the size check
and processing continues with the post-read steps; a body of 8193 bytes
or more yields status 413 with the distinguished body-too-large error;
any other body-read failure yields status 500 with that error; and an
empty body after a successful read yields status 400. -/
theorem claim_C4 (db : Database) (query headers : List (String × String))
    (hq : queryValues query "dns" = [])
    (hct : headerGet headers "Content-Type" = mime) :
    (∀ data : Bytes, data.length = 8192 →
      PostRequest.Handle db ⟨"POST", query, headers, .bytes data⟩ ResponseWriter.init
        = postBodyStep db data (ResponseWriter.init.setHeader "Content-Type" mime)) ∧
    (∀ data : Bytes, 8193 ≤ data.length →
      (PostRequest.Handle db ⟨"POST", query, headers, .bytes data⟩
          ResponseWriter.init).1.status = 413 ∧
      (PostRequest.Handle db ⟨"POST", query, headers, .bytes data⟩
          ResponseWriter.init).2 = some "http: request body too large") ∧
    (∀ msg, msg ≠ "http: request body too large" →
      (PostRequest.Handle db ⟨"POST", query, headers, .readError msg⟩
          ResponseWriter.init).1.status = 500 ∧
      (PostRequest.Handle db ⟨"POST", query, headers, .readError msg⟩
          ResponseWriter.init).2 = some msg) ∧
    (PostRequest.Handle db ⟨"POST", query, headers, .bytes []⟩
        ResponseWriter.init).1.status = 400 := by
  refine ⟨?_, ?_, ?_, ?_⟩
  · intro data hlen
    have hsz : ¬(8192 < data.length) := by omega
    simp [PostRequest.Handle, readAllMax, hq, hct, hsz]
  · intro data hlen
    have hsz : 8192 < data.length := by omega
    refine ⟨?_, ?_⟩ <;>
      simp [PostRequest.Handle, readAllMax, hq, hct, hsz,
            httpError_status, initSet_wroteHeader]
  · intro msg hmsg
    refine ⟨?_, ?_⟩ <;>
      simp [PostRequest.Handle, readAllMax, hq, hct, hmsg,
            httpError_status, initSet_wroteHeader]
  · simp [PostRequest.Handle, readAllMax, postBodyStep, hq, hct,
          httpError_status, initSet_wroteHeader]

theorem claim_C4_witness :
    (PostRequest.Handle dbEcho
        ⟨"POST", [], [("Content-Type", mime)], .bytes (List.replicate 8192 7)⟩
        ResponseWriter.init
      = postBodyStep dbEcho (List.replicate 8192 7)
          (ResponseWriter.init.setHeader "Content-Type" mime)) ∧
    (PostRequest.Handle dbEcho
        ⟨"POST", [], [("Content-Type", mime)], .bytes (List.replicate 8193 7)⟩
        ResponseWriter.init).1.status = 413 ∧
    (PostRequest.Handle dbEcho
        ⟨"POST", [], [("Content-Type", mime)], .readError "test error"⟩
        ResponseWriter.init).1.status = 500 ∧
    (PostRequest.Handle dbEcho
        ⟨"POST", [], [("Content-Type", mime)], .bytes []⟩
        ResponseWriter.init).1.status = 400 :=
  ⟨(claim_C4 dbEcho [] [("Content-Type", mime)] rfl rfl).1 _
      (by rw [List.length_replicate]),
   ((claim_C4 dbEcho [] [("Content-Type", mime)] rfl rfl).2.1 _
      (by simp only [List.length_replicate, le_refl])).1,
   ((claim_C4 dbEcho [] [("Content-Type", mime)] rfl rfl).2.2.1 _ (by decide)).1,
   (claim_C4 dbEcho [] [("Content-Type", mime)] rfl rfl).2.2.2⟩

/-- Claim C5: whenever the wire-format bytes reach the backend, a
backend error makes the handler respond with exactly the status code
the backend returned and return the backend error to the dispatcher,
while a backend success makes the handler write the returned bytes
unmodified as the full response body with status 200 — for the GET and
the POST validator alike. -/
theorem claim_C5 (db : Database) (r : HttpRequest) :
    (∀ v qdata rdata s e, queryValues r.query "dns" = [v] → v ≠ "" →
      base64RawURLDecode v = .ok qdata →
      db.Query qdata = (rdata, s, some e) →
      (GetRequest.Handle db r ResponseWriter.init).1.status = s ∧
      (GetRequest.Handle db r ResponseWriter.init).2 = some e) ∧
    (∀ v qdata rdata s, queryValues r.query "dns" = [v] → v ≠ "" →
      base64RawURLDecode v = .ok qdata →
      db.Query qdata = (rdata, s, none) →
      (GetRequest.Handle db r ResponseWriter.init).1.status = 200 ∧
      (GetRequest.Handle db r ResponseWriter.init).1.body = rdata ∧
      (GetRequest.Handle db r ResponseWriter.init).2 = none) ∧
    (∀ qdata rdata s e, queryValues r.query "dns" = [] →
      headerGet r.headers "Content-Type" = mime →
      r.body = .bytes qdata → qdata.length ≤ 8192 → qdata ≠ [] →
      db.Query qdata = (rdata, s, some e) →
      (PostRequest.Handle db r ResponseWriter.init).1.status = s ∧
      (PostRequest.Handle db r ResponseWriter.init).2 = some e) ∧
    (∀ qdata rdata s, queryValues r.query "dns" = [] →
      headerGet r.headers "Content-Type" = mime →
      r.body = .bytes qdata → qdata.length ≤ 8192 → qdata ≠ [] →
      db.Query qdata = (rdata, s, none) →
      (PostRequest.Handle db r ResponseWriter.init).1.status = 200 ∧
      (PostRequest.Handle db r ResponseWriter.init).1.body = rdata ∧
      (PostRequest.Handle db r ResponseWriter.init).2 = none) := by
  refine ⟨?_, ?_, ?_, ?_⟩
  · intro v qdata rdata s e hq hv hdec hQ
    have hlen : ¬(v.length = 0) := length_ne_zero_of_ne_empty v hv
    refine ⟨?_, ?_⟩ <;>
      simp [GetRequest.Handle, hq, hlen, hdec, hQ,
            httpError_status, initSet_wroteHeader]
  · intro v qdata rdata s hq hv hdec hQ
    have hlen : ¬(v.length = 0) := length_ne_zero_of_ne_empty v hv
    refine ⟨?_, ?_, ?_⟩ <;>
      simp [GetRequest.Handle, hq, hlen, hdec, hQ,
            write_status_fresh, write_body, initSet_wroteHeader, initSet_body]
  · intro qdata rdata s e hq hct hbody hlen hne hQ
    have hsz : ¬(8192 < qdata.length) := by omega
    have hz : ¬(qdata.length = 0) := by
      intro h0
      exact hne (List.length_eq_zero.mp h0)
    refine ⟨?_, ?_⟩ <;>
      simp [PostRequest.Handle, postBodyStep, readAllMax, hq, hct, hbody, hsz,
            hz, hQ, httpError_status, initSet_wroteHeader]
  · intro qdata rdata s hq hct hbody hlen hne hQ
    have hsz : ¬(8192 < qdata.length) := by omega
    have hz : ¬(qdata.length = 0) := by
      intro h0
      exact hne (List.length_eq_zero.mp h0)
    refine ⟨?_, ?_, ?_⟩ <;>
      simp [PostRequest.Handle, postBodyStep, readAllMax, hq, hct, hbody, hsz,
            hz, hQ, write_status_fresh, write_body, initSet_wroteHeader, initSet_body]

theorem claim_C5_witness :
    ((GetRequest.Handle dbEcho ⟨"GET", [("dns", "AAAA")], [], .bytes []⟩
        ResponseWriter.init).1.status = 200 ∧
     (GetRequest.Handle dbEcho ⟨"GET", [("dns", "AAAA")], [], .bytes []⟩
        ResponseWriter.init).1.body = [0, 0, 0] ∧
     (GetRequest.Handle dbEcho ⟨"GET", [("dns", "AAAA")], [], .bytes []⟩
        ResponseWriter.init).2 = none) ∧
    ((PostRequest.Handle dbEcho ⟨"POST", [], [("Content-Type", mime)], .bytes [9, 8]⟩
        ResponseWriter.init).1.status = 200 ∧
     (PostRequest.Handle dbEcho ⟨"POST", [], [("Content-Type", mime)], .bytes [9, 8]⟩
        ResponseWriter.init).1.body = [9, 8] ∧
     (PostRequest.Handle dbEcho ⟨"POST", [], [("Content-Type", mime)], .bytes [9, 8]⟩
        ResponseWriter.init).2 = none) :=
  ⟨(claim_C5 dbEcho _).2.1 "AAAA" [0, 0, 0] [0, 0, 0] 200 rfl (by decide) rfl rfl,
   (claim_C5 dbEcho _).2.2.2 [9, 8] [9, 8] 200 rfl rfl rfl (by decide) (by decide) rfl⟩

/-- Claim C9: for every wire-format query Q (nonempty, within the POST
size cap, genuine bytes) and every fixed backend, a GET request whose
single dns parameter is the unpadded base64url encoding of Q reaches
the backend with exactly the bytes of Q — the encoding decodes back to
Q — and produces the same response and dispatcher error as a POST
request carrying the raw bytes of Q with the correct Content-Type and
no dns parameter. -/
theorem claim_C9 (db : Database) (Q : Bytes) (hne : Q ≠ [])
    (hlen : Q.length ≤ 8192) (hbytes : ∀ b ∈ Q, b < 256) :
    base64RawURLDecode (base64RawURLEncode Q) = .ok Q ∧
    GetRequest.Handle db ⟨"GET", [("dns", base64RawURLEncode Q)], [], .bytes []⟩
        ResponseWriter.init
      = PostRequest.Handle db ⟨"POST", [], [("Content-Type", mime)], .bytes Q⟩
          ResponseWriter.init := by
  have hdec : base64RawURLDecode (base64RawURLEncode Q) = .ok Q := by
    unfold base64RawURLDecode base64RawURLEncode
    exact b64_decode_encode Q hbytes
  refine ⟨hdec, ?_⟩
  have hqv : queryValues [("dns", base64RawURLEncode Q)] "dns"
      = [base64RawURLEncode Q] := by simp [queryValues]
  have henc : ¬((base64RawURLEncode Q).length = 0) := by
    unfold base64RawURLEncode
    simp only [String.length_mk]
    intro h0
    exact b64EncodeChunks_ne_nil Q hne (List.length_eq_zero.mp h0)
  have hsz : ¬(8192 < Q.length) := by omega
  have hz : ¬(Q.length = 0) := by
    intro h0
    exact hne (List.length_eq_zero.mp h0)
  rcases hQ : db.Query Q with ⟨rd, s, e⟩
  cases e with
  | none =>
    simp [GetRequest.Handle, PostRequest.Handle, postBodyStep, readAllMax,
          queryValues, headerGet, List.find?, hqv, henc, hdec, hsz, hz, hQ]
  | some err =>
    simp [GetRequest.Handle, PostRequest.Handle, postBodyStep, readAllMax,
          queryValues, headerGet, List.find?, hqv, henc, hdec, hsz, hz, hQ]

theorem claim_C9_witness :
    base64RawURLDecode (base64RawURLEncode [0, 1, 255]) = .ok [0, 1, 255] ∧
    GetRequest.Handle dbEcho
        ⟨"GET", [("dns", base64RawURLEncode [0, 1, 255])], [], .bytes []⟩
        ResponseWriter.init
      = PostRequest.Handle dbEcho
          ⟨"POST", [], [("Content-Type", mime)], .bytes [0, 1, 255]⟩
          ResponseWriter.init :=
  claim_C9 dbEcho [0, 1, 255] (by decide) (by decide) (by decide)

/-- Claim C10: for every backend whose Query is a deterministic function
of the input bytes — formalized as: any two backends with pointwise
equal Query functions — the handler returned by HandleRequest produces
identical responses on identical requests: the same final writer state
(status, headers, body) and the same dispatcher error.  Nothing besides
the request and the query function influences the response. -/
theorem claim_C10 (db1 db2 : Database) (hq : ∀ b, db1.Query b = db2.Query b)
    (r : HttpRequest) (w : ResponseWriter) :
    HandleRequest db1 r w = HandleRequest db2 r w := by
  obtain ⟨f⟩ := db1
  obtain ⟨g⟩ := db2
  have hfg : f = g := funext hq
  subst hfg
  rfl

theorem claim_C10_witness :
    HandleRequest dbEcho ⟨"GET", [("dns", "AAAA")], [], .bytes []⟩ ResponseWriter.init
      = HandleRequest dbEchoApp ⟨"GET", [("dns", "AAAA")], [], .bytes []⟩
          ResponseWriter.init :=
  claim_C10 dbEcho dbEchoApp (fun b => by simp [dbEcho, dbEchoApp]) _ _

/-! ### Claims about the resolver proxy -/

/-- Claim C6: for every ProxyBackend and input bytes, Query returns
(nil, 400, error) when unpacking fails, (nil, 500, error) when the
exchange fails after a successful unpack, (nil, 500, error) when
packing the reply fails, and (replyBytes, 200, nil) when all three
steps succeed. -/
theorem claim_C6 {Msg : Type} (pb : ProxyBackend Msg) (codec : DnsCodec Msg)
    (qdata : Bytes) :
    (∀ e, codec.unpack qdata = .error e →
      pb.Query codec qdata = (none, 400, some e)) ∧
    (∀ m e, codec.unpack qdata = .ok m →
      pb.Exchanger m (joinHostPort (pb.Servers.headD "") pb.Port) = .error e →
      pb.Query codec qdata = (none, 500, some e)) ∧
    (∀ m reply d e, codec.unpack qdata = .ok m →
      pb.Exchanger m (joinHostPort (pb.Servers.headD "") pb.Port) = .ok (reply, d) →
      codec.pack reply = .error e →
      pb.Query codec qdata = (none, 500, some e)) ∧
    (∀ m reply d out, codec.unpack qdata = .ok m →
      pb.Exchanger m (joinHostPort (pb.Servers.headD "") pb.Port) = .ok (reply, d) →
      codec.pack reply = .ok out →
      pb.Query codec qdata = (some out, 200, none)) := by
  refine ⟨?_, ?_, ?_, ?_⟩
  · intro e hu
    simp [ProxyBackend.Query, ProxyBackend.QueryT, hu]
  · intro m e hu hx
    simp only [List.headD_eq_head?_getD] at hx
    simp [ProxyBackend.Query, ProxyBackend.QueryT, hu, hx]
  · intro m reply d e hu hx hp
    simp only [List.headD_eq_head?_getD] at hx
    simp [ProxyBackend.Query, ProxyBackend.QueryT, hu, hx, hp]
  · intro m reply d out hu hx hp
    simp only [List.headD_eq_head?_getD] at hx
    simp [ProxyBackend.Query, ProxyBackend.QueryT, hu, hx, hp]

theorem claim_C6_witness :
    pbOk.Query codecId [3] = (some [3, 1], 200, none) :=
  (claim_C6 pbOk codecId [3]).2.2.2 [3] [3, 1] 5 [3, 1] rfl rfl rfl

/-- Claim C7 counterexample: a Query call whose input bytes fail to
unpack completes with the 400 outcome while performing zero Exchange
invocations — not exactly one invocation per Query call as claimed. -/
theorem claim_C7_cex :
    pbOk.Query codecFail [255] = (none, 400, some "unpack failed") ∧
    (pbOk.QueryT codecFail [255]).2 = [] :=
  ⟨rfl, rfl⟩

/-- Claim C7 (amended): every call to ProxyBackend.Query invokes the
Exchange Capability at most once — exactly once when the input unpacks
successfully, and not at all when unpacking fails — and every
invocation uses the address joining the first configured server with
the port; no other server is ever contacted and no retry or failover
across the server list occurs, regardless of how many servers are
configured or whether the exchange fails. -/
theorem claim_C7 {Msg : Type} (pb : ProxyBackend Msg) (codec : DnsCodec Msg)
    (qdata : Bytes) :
    (pb.QueryT codec qdata).2.length ≤ 1 ∧
    (∀ c ∈ (pb.QueryT codec qdata).2,
      c.2 = joinHostPort (pb.Servers.headD "") pb.Port) ∧
    (∀ m, codec.unpack qdata = .ok m →
      (pb.QueryT codec qdata).2
        = [(m, joinHostPort (pb.Servers.headD "") pb.Port)]) := by
  rcases hu : codec.unpack qdata with e | m
  · simp [ProxyBackend.QueryT, hu]
  · rcases hx : pb.Exchanger m (joinHostPort (pb.Servers.headD "") pb.Port)
      with e | p
    · simp only [List.headD_eq_head?_getD] at hx
      simp [ProxyBackend.QueryT, hu, hx]
    · rcases p with ⟨reply, d⟩
      rcases hp : codec.pack reply with e | out
      · simp only [List.headD_eq_head?_getD] at hx
        simp [ProxyBackend.QueryT, hu, hx, hp]
      · simp only [List.headD_eq_head?_getD] at hx
        simp [ProxyBackend.QueryT, hu, hx, hp]

theorem claim_C7_witness :
    (pbOk.QueryT codecId [4]).2 = [([4], "192.0.2.53:53")] :=
  ((claim_C7 pbOk codecId [4]).2.2 [4] rfl).trans (by decide)

theorem NewProxy_none_eq {Msg : Type} (readConf : String → Except String (List String))
    (dflt : Msg → String → Except String (Msg × Nat)) (port rc : String)
    (exch : Option (Msg → String → Except String (Msg × Nat))) :
    NewProxy readConf dflt none port rc exch
      = match readConf (if rc = "" then "/etc/resolv.conf" else rc) with
        | .error e => .error e
        | .ok ss =>
          .ok ⟨ss, if port = "" then "53" else port, "",
               match exch with
               | none => dflt
               | some e => e⟩ := rfl

theorem NewProxy_some_eq {Msg : Type} (readConf : String → Except String (List String))
    (dflt : Msg → String → Except String (Msg × Nat)) (s : List String)
    (port rc : String)
    (exch : Option (Msg → String → Except String (Msg × Nat))) :
    NewProxy readConf dflt (some s) port rc exch
      = .ok ⟨s, if port = "" then "53" else port, "",
             match exch with
             | none => dflt
             | some e => e⟩ := rfl

/-- Claim C8 counterexample: constructing with an empty non-nil servers
slice succeeds without consulting the resolver-configuration file — the
configured reader would have supplied a nonempty list — and the
resulting ProxyBackend has an empty Servers list, so neither the
read-from-file clause for empty servers nor the nonempty-Servers
invariant of the claim holds. -/
theorem claim_C8_cex :
    readConfEx "/etc/resolv.conf" = .ok ["192.0.2.53"] ∧
    (NewProxy readConfEx dfltEx (some []) "" "" none).map ProxyBackend.Servers
      = .ok [] :=
  ⟨rfl, rfl⟩

/-- Claim C8 (amended): when servers is nil (absent), the server list is
read from the resolver-configuration file, whose path defaults to
/etc/resolv.conf when empty, and a read or parse failure aborts
construction with that error and no ProxyBackend; when a servers slice
is given — even an empty non-nil one — the file is not consulted and
the slice is used as is; an empty port defaults to "53"; a nil
exchanger defaults to the standard DNS client; and a ProxyBackend
constructed from a nonempty given slice, or from a successfully parsed
nonempty file list, has a nonempty Servers list. -/
theorem claim_C8 {Msg : Type} (readConf : String → Except String (List String))
    (dflt : Msg → String → Except String (Msg × Nat)) (port resolvconf : String)
    (exchanger : Option (Msg → String → Except String (Msg × Nat))) :
    (∀ e, readConf (if resolvconf = "" then "/etc/resolv.conf" else resolvconf)
        = .error e →
      NewProxy readConf dflt none port resolvconf exchanger = .error e) ∧
    (∀ ss, readConf (if resolvconf = "" then "/etc/resolv.conf" else resolvconf)
        = .ok ss →
      (NewProxy readConf dflt none port resolvconf exchanger).map
          ProxyBackend.Servers = .ok ss) ∧
    (∀ s, (NewProxy readConf dflt (some s) port resolvconf exchanger).map
        ProxyBackend.Servers = .ok s) ∧
    (∀ servers pb, port = "" →
      NewProxy readConf dflt servers port resolvconf exchanger = .ok pb →
      pb.Port = "53") ∧
    (∀ servers pb, exchanger = none →
      NewProxy readConf dflt servers port resolvconf exchanger = .ok pb →
      pb.Exchanger = dflt) ∧
    (∀ s pb, s ≠ [] →
      NewProxy readConf dflt (some s) port resolvconf exchanger = .ok pb →
      pb.Servers ≠ []) ∧
    (∀ ss pb, ss ≠ [] →
      readConf (if resolvconf = "" then "/etc/resolv.conf" else resolvconf)
        = .ok ss →
      NewProxy readConf dflt none port resolvconf exchanger = .ok pb →
      pb.Servers ≠ []) := by
  refine ⟨?_, ?_, ?_, ?_, ?_, ?_, ?_⟩
  · intro e he
    rw [NewProxy_none_eq, he]
  · intro ss hs
    rw [NewProxy_none_eq, hs]
    rfl
  · intro s
    rw [NewProxy_some_eq]
    rfl
  · intro servers pb hp hEq
    subst hp
    cases servers with
    | none =>
      rw [NewProxy_none_eq] at hEq
      cases hrc : readConf (if resolvconf = "" then "/etc/resolv.conf"
          else resolvconf) with
      | error e => rw [hrc] at hEq; simp at hEq
      | ok ss =>
        rw [hrc] at hEq
        simp at hEq
        rw [← hEq]
    | some s =>
      rw [NewProxy_some_eq] at hEq
      simp at hEq
      rw [← hEq]
  · intro servers pb hx hEq
    subst hx
    cases servers with
    | none =>
      rw [NewProxy_none_eq] at hEq
      cases hrc : readConf (if resolvconf = "" then "/etc/resolv.conf"
          else resolvconf) with
      | error e => rw [hrc] at hEq; simp at hEq
      | ok ss =>
        rw [hrc] at hEq
        simp at hEq
        rw [← hEq]
    | some s =>
      rw [NewProxy_some_eq] at hEq
      simp at hEq
      rw [← hEq]
  · intro s pb hs hEq
    rw [NewProxy_some_eq] at hEq
    simp at hEq
    rw [← hEq]
    exact hs
  · intro ss pb hs hrc hEq
    rw [NewProxy_none_eq, hrc] at hEq
    simp at hEq
    rw [← hEq]
    exact hs

theorem claim_C8_witness :
    (NewProxy readConfEx dfltEx none "" "" none).map ProxyBackend.Servers
      = .ok ["192.0.2.53"] ∧
    (NewProxy readConfEx dfltEx (some ["198.51.100.7"]) "" "" none).map
        ProxyBackend.Servers = .ok ["198.51.100.7"] :=
  ⟨(claim_C8 readConfEx dfltEx "" "" none).2.1 ["192.0.2.53"] rfl,
   (claim_C8 readConfEx dfltEx "" "" none).2.2.1 ["198.51.100.7"]⟩

end Dohdns
